import Mathlib

/-!
Shallow embedding of the StopZoomingDammit camera-arbitration engine
(src/src/zoom.c).  The repository holds three variants of the same plugin:
an extended variant whose camera callback additionally performs kinematic
extrapolation of the pose (zoom.c lines 113-156), and two identical base
variants without it (lines 427-453 and 696-722).

Modelling choices:
* C `double` values (the pose fields and `zoom_tgt`) are modelled as `ℚ`.
  The engine only copies and compares zoom values for exact equality, so
  this is faithful for every zoom-related claim; the extended variant's
  position arithmetic is modelled as exact rational arithmetic.
* `microclock()` (microseconds, `uint64_t`) is modelled as `ℕ`.  The only
  arithmetic on it is `now + T` for `T ≤ 1250000`; a 64-bit microsecond
  clock would need ~584000 years of uptime to overflow, so wraparound is
  not modelled.
* The four `static` globals become the fields of `ZoomState`; each C
  callback becomes a pure function from the pre-state (plus its inputs)
  to the post-state and its outputs.
-/

namespace StopZooming

/-- The `XPLMCameraPosition_t` pose handed to the camera callback
(fields in declaration order of the SDK struct; `double` as `ℚ`). -/
structure CameraPos where
  x : ℚ
  y : ℚ
  z : ℚ
  pitch : ℚ
  heading : ℚ
  roll : ℚ
  zoom : ℚ
deriving DecidableEq, Repr

/-- The four module-level globals of zoom.c:
`allow_zoom` (the hold flag), `allow_zoom_t` (the grace deadline in
microseconds, 0 = none), `cam_ctl` (camera authority held), and
`zoom_tgt` (the authoritative zoom value). -/
structure ZoomState where
  allow_zoom : Bool
  allow_zoom_t : ℕ
  cam_ctl : Bool
  zoom_tgt : ℚ
deriving DecidableEq, Repr

/-- `ZOOM_REL_INH_KEY_T`: grace after releasing the allow-zoom key (us). -/
def ZOOM_REL_INH_KEY_T : ℕ := 500000

/-- `ZOOM_REL_CMD_T`: grace after a `sim/general/zoom_*` command (us). -/
def ZOOM_REL_CMD_T : ℕ := 550000

/-- `ZOOM_REL_QUICK_LOOK_T`: grace after a `sim/view/quick_look_*`
command (us). -/
def ZOOM_REL_QUICK_LOOK_T : ℕ := 1250000

/-- The permission condition of `cam_ctl_cb` (zoom.c line 126 / 440 /
709): `allow_zoom || (allow_zoom_t != 0 && microclock() < allow_zoom_t)`. -/
def permission_granted (now : ℕ) (s : ZoomState) : Bool :=
  s.allow_zoom || (s.allow_zoom_t != 0 && decide (now < s.allow_zoom_t))

/-- Result of one invocation of the camera callback: the post-state of
the globals, the (possibly modified) pose, and the C return value
(`true` = 1 = retain camera control, `false` = 0 = release). -/
structure CamCtlResult where
  state : ZoomState
  pos : CameraPos
  retain : Bool
deriving DecidableEq, Repr

/-- Base-variant `cam_ctl_cb` (zoom.c lines 427-453).  `pos` is the pose
as filled in by `XPLMReadCameraPosition`; `losing_ctl` is the
losing-authority flag. -/
def cam_ctl_cb (now : ℕ) (s : ZoomState) (pos : CameraPos)
    (losing_ctl : Bool) : CamCtlResult :=
  if losing_ctl then
    { state := { s with cam_ctl := false }, pos := pos, retain := false }
  else if permission_granted now s then
    /- Learning phase - follow X-Plane's zooming behavior -/
    { state := { s with zoom_tgt := pos.zoom, cam_ctl := false },
      pos := pos, retain := false }
  else if pos.zoom ≠ s.zoom_tgt then
    /- Inhibit - prevent X-Plane from zooming -/
    { state := { s with allow_zoom_t := 0 },
      pos := { pos with zoom := s.zoom_tgt }, retain := true }
  else
    { state := { s with cam_ctl := false }, pos := pos, retain := false }

/-- The kinematic datarefs read by the extended variant
(`drs.local_v*`, `drs.local_a*`, `drs.P/Q/R`, `drs.frame_intval`). -/
structure Kinematics where
  local_vx : ℚ
  local_vy : ℚ
  local_vz : ℚ
  local_ax : ℚ
  local_ay : ℚ
  local_az : ℚ
  P : ℚ
  Q : ℚ
  R : ℚ
  frame_intval : ℚ
deriving DecidableEq, Repr

/-- Extended-variant `cam_ctl_cb` (zoom.c lines 113-156): identical to
the base variant except that the inhibit branch also extrapolates the
pose position by `v*dt + 0.5*a*dt^2` and the orientation by the angular
rates times `dt` (`POW2(intval)` is `intval*intval`). -/
def cam_ctl_cb_ext (now : ℕ) (k : Kinematics) (s : ZoomState)
    (pos : CameraPos) (losing_ctl : Bool) : CamCtlResult :=
  if losing_ctl then
    { state := { s with cam_ctl := false }, pos := pos, retain := false }
  else if permission_granted now s then
    { state := { s with zoom_tgt := pos.zoom, cam_ctl := false },
      pos := pos, retain := false }
  else if pos.zoom ≠ s.zoom_tgt then
    { state := { s with allow_zoom_t := 0 },
      pos := { pos with
        zoom := s.zoom_tgt,
        x := pos.x + k.local_vx * k.frame_intval
            + 1/2 * k.local_ax * (k.frame_intval * k.frame_intval),
        y := pos.y + k.local_vy * k.frame_intval
            + 1/2 * k.local_ay * (k.frame_intval * k.frame_intval),
        z := pos.z + k.local_vz * k.frame_intval
            + 1/2 * k.local_az * (k.frame_intval * k.frame_intval),
        roll := pos.roll + k.P * k.frame_intval,
        pitch := pos.pitch + k.Q * k.frame_intval,
        heading := pos.heading + k.R * k.frame_intval },
      retain := true }
  else
    { state := { s with cam_ctl := false }, pos := pos, retain := false }

/-- Result of one invocation of the per-frame gate: the post-state and
whether `XPLMControlCamera` (install of the override callback with
`xplm_ControlCameraUntilViewChanges` duration) was invoked. -/
structure DrawResult where
  state : ZoomState
  installed : Bool
deriving DecidableEq, Repr

/-- `draw_cb` (zoom.c lines 158-174): the per-frame gate.
`view_is_ext` is the `sim/graphics/view/view_is_external` dataref
read as a boolean. -/
def draw_cb (view_is_ext : Bool) (s : ZoomState) : DrawResult :=
  if !view_is_ext && !s.cam_ctl then
    { state := { s with cam_ctl := true }, installed := true }
  else
    { state := s, installed := false }

/-- The command-phase argument delivered by the X-Plane command
dispatcher (`xplm_CommandBegin` / `xplm_CommandContinue` /
`xplm_CommandEnd`). -/
inductive CommandPhase where
  | begin_
  | continue_
  | end_
deriving DecidableEq, Repr

/-- `quick_look_cmd_cb` (zoom.c lines 179-187): handler bound to the
twenty `sim/view/quick_look_0` .. `quick_look_19` commands.  `ref`
identifies which of the twenty slots fired; like the C code
(`UNUSED(ref); UNUSED(phase)`) the body ignores both. -/
def quick_look_cmd_cb (now : ℕ) (ref : Fin 20) (phase : CommandPhase)
    (s : ZoomState) : ZoomState :=
  { s with allow_zoom_t := now + ZOOM_REL_QUICK_LOOK_T }

/-- The six `sim/general/zoom_*` commands that `zoom_cmd_cb` is bound
to: zoom_in, zoom_out, zoom_in_fast, zoom_out_fast, zoom_in_slow,
zoom_out_slow. -/
inductive ZoomCmd where
  | zoom_in
  | zoom_out
  | zoom_in_fast
  | zoom_out_fast
  | zoom_in_slow
  | zoom_out_slow
deriving DecidableEq, Repr

/-- `zoom_cmd_cb` (zoom.c lines 192-200): handler bound to the six
`sim/general/zoom_*` commands; ignores `ref` and `phase`. -/
def zoom_cmd_cb (now : ℕ) (ref : ZoomCmd) (phase : CommandPhase)
    (s : ZoomState) : ZoomState :=
  { s with allow_zoom_t := now + ZOOM_REL_CMD_T }

/-- The two commands created by the plugin itself and dispatched to
`allow_zoom_cb`: `stopzooming/allow_zoom_hold` and
`stopzooming/allow_zoom_toggle`. -/
inductive AllowZoomRef where
  | allow_zoom_hold
  | allow_zoom_tog
deriving DecidableEq, Repr

/-- `allow_zoom_cb` (zoom.c lines 205-229): handler for the custom
hold and toggle commands. -/
def allow_zoom_cb (now : ℕ) (ref : AllowZoomRef) (phase : CommandPhase)
    (s : ZoomState) : ZoomState :=
  match ref with
  | .allow_zoom_hold =>
    if phase = .begin_ ∨ phase = .continue_ then
      { s with allow_zoom := true }
    else
      { s with allow_zoom := false,
               allow_zoom_t := now + ZOOM_REL_INH_KEY_T }
  | .allow_zoom_tog =>
    if phase = .begin_ then
      let az := !s.allow_zoom
      if !az then
        { s with allow_zoom := az,
                 allow_zoom_t := now + ZOOM_REL_INH_KEY_T }
      else
        { s with allow_zoom := az }
    else
      s

/-! ## Helper lemmas -/

/-- Unfolding of the permission condition into a proposition. -/
theorem permission_granted_iff (now : ℕ) (s : ZoomState) :
    permission_granted now s = true ↔
      (s.allow_zoom = true ∨ (s.allow_zoom_t ≠ 0 ∧ now < s.allow_zoom_t)) := by
  simp [permission_granted]

/-- The permission condition is false when the hold flag is off and the
deadline is zero or already reached. -/
theorem permission_granted_false (now : ℕ) (s : ZoomState)
    (hhold : s.allow_zoom = false)
    (hdl : s.allow_zoom_t = 0 ∨ ¬ now < s.allow_zoom_t) :
    permission_granted now s = false := by
  rcases hdl with h0 | hlt
  · simp [permission_granted, hhold, h0]
  · simp [permission_granted, hhold, hlt]

/-! ## Claims -/

/-- C3: the permission predicate queried by the camera override callback
holds exactly when `allow_zoom` is true, or the deadline is nonzero and
the current time is strictly below it; with the hold flag set permission
is granted for every deadline (zero or in the past included); with the
hold flag clear and deadline zero it is denied; and at a time exactly
equal to the deadline it is denied. -/
theorem permission_granted_characterization (now t : ℕ) (c : Bool) (z : ℚ)
    (s : ZoomState) :
    (permission_granted now s = true ↔
      (s.allow_zoom = true ∨ (s.allow_zoom_t ≠ 0 ∧ now < s.allow_zoom_t))) ∧
    permission_granted now ⟨true, t, c, z⟩ = true ∧
    permission_granted now ⟨false, 0, c, z⟩ = false ∧
    permission_granted t ⟨false, t, c, z⟩ = false := by
  refine ⟨permission_granted_iff now s, ?_, ?_, ?_⟩
  · simp [permission_granted]
  · simp [permission_granted]
  · simp [permission_granted]

/-- C1: with permission not granted and a proposed zoom differing from
`zoom_tgt`, one invocation of the camera callback (base or extended
variant) with `losing_ctl` false writes the pre-call `zoom_tgt` into the
pose's zoom, leaves `zoom_tgt` itself unchanged, zeroes the deadline,
leaves `allow_zoom` and `cam_ctl` unchanged, and returns retain. -/
theorem cam_ctl_cb_suppression (now : ℕ) (k : Kinematics) (s : ZoomState)
    (pos : CameraPos)
    (hhold : s.allow_zoom = false)
    (hdl : s.allow_zoom_t = 0 ∨ ¬ now < s.allow_zoom_t)
    (hz : pos.zoom ≠ s.zoom_tgt) :
    ((cam_ctl_cb now s pos false).pos.zoom = s.zoom_tgt ∧
     (cam_ctl_cb now s pos false).state.zoom_tgt = s.zoom_tgt ∧
     (cam_ctl_cb now s pos false).state.allow_zoom_t = 0 ∧
     (cam_ctl_cb now s pos false).state.allow_zoom = s.allow_zoom ∧
     (cam_ctl_cb now s pos false).state.cam_ctl = s.cam_ctl ∧
     (cam_ctl_cb now s pos false).retain = true) ∧
    ((cam_ctl_cb_ext now k s pos false).pos.zoom = s.zoom_tgt ∧
     (cam_ctl_cb_ext now k s pos false).state.zoom_tgt = s.zoom_tgt ∧
     (cam_ctl_cb_ext now k s pos false).state.allow_zoom_t = 0 ∧
     (cam_ctl_cb_ext now k s pos false).state.allow_zoom = s.allow_zoom ∧
     (cam_ctl_cb_ext now k s pos false).state.cam_ctl = s.cam_ctl ∧
     (cam_ctl_cb_ext now k s pos false).retain = true) := by
  have hp := permission_granted_false now s hhold hdl
  simp [cam_ctl_cb, cam_ctl_cb_ext, hp, hz]

/-- C1 witness at a concrete input. -/
theorem cam_ctl_cb_suppression_witness :
    ((cam_ctl_cb 7 ⟨false, 3, true, 1⟩ ⟨0, 0, 0, 0, 0, 0, 2⟩ false).pos.zoom
        = (1 : ℚ) ∧
     (cam_ctl_cb 7 ⟨false, 3, true, 1⟩ ⟨0, 0, 0, 0, 0, 0, 2⟩ false).state.zoom_tgt
        = (1 : ℚ) ∧
     (cam_ctl_cb 7 ⟨false, 3, true, 1⟩ ⟨0, 0, 0, 0, 0, 0, 2⟩ false).state.allow_zoom_t
        = 0 ∧
     (cam_ctl_cb 7 ⟨false, 3, true, 1⟩ ⟨0, 0, 0, 0, 0, 0, 2⟩ false).state.allow_zoom
        = false ∧
     (cam_ctl_cb 7 ⟨false, 3, true, 1⟩ ⟨0, 0, 0, 0, 0, 0, 2⟩ false).state.cam_ctl
        = true ∧
     (cam_ctl_cb 7 ⟨false, 3, true, 1⟩ ⟨0, 0, 0, 0, 0, 0, 2⟩ false).retain
        = true) ∧
    ((cam_ctl_cb_ext 7 ⟨1, 1, 1, 1, 1, 1, 1, 1, 1, 1⟩ ⟨false, 3, true, 1⟩
        ⟨0, 0, 0, 0, 0, 0, 2⟩ false).pos.zoom = (1 : ℚ) ∧
     (cam_ctl_cb_ext 7 ⟨1, 1, 1, 1, 1, 1, 1, 1, 1, 1⟩ ⟨false, 3, true, 1⟩
        ⟨0, 0, 0, 0, 0, 0, 2⟩ false).state.zoom_tgt = (1 : ℚ) ∧
     (cam_ctl_cb_ext 7 ⟨1, 1, 1, 1, 1, 1, 1, 1, 1, 1⟩ ⟨false, 3, true, 1⟩
        ⟨0, 0, 0, 0, 0, 0, 2⟩ false).state.allow_zoom_t = 0 ∧
     (cam_ctl_cb_ext 7 ⟨1, 1, 1, 1, 1, 1, 1, 1, 1, 1⟩ ⟨false, 3, true, 1⟩
        ⟨0, 0, 0, 0, 0, 0, 2⟩ false).state.allow_zoom = false ∧
     (cam_ctl_cb_ext 7 ⟨1, 1, 1, 1, 1, 1, 1, 1, 1, 1⟩ ⟨false, 3, true, 1⟩
        ⟨0, 0, 0, 0, 0, 0, 2⟩ false).state.cam_ctl = true ∧
     (cam_ctl_cb_ext 7 ⟨1, 1, 1, 1, 1, 1, 1, 1, 1, 1⟩ ⟨false, 3, true, 1⟩
        ⟨0, 0, 0, 0, 0, 0, 2⟩ false).retain = true) :=
  cam_ctl_cb_suppression 7 ⟨1, 1, 1, 1, 1, 1, 1, 1, 1, 1⟩ ⟨false, 3, true, 1⟩
    ⟨0, 0, 0, 0, 0, 0, 2⟩ rfl (Or.inr (by decide)) (by decide)

/-- C2: with permission granted (hold flag set, or deadline nonzero and
the current time strictly before it) and `losing_ctl` false, the camera
callback (base or extended variant) sets `zoom_tgt` to the proposed zoom,
returns the pose completely unmodified, and leaves `allow_zoom` and the
deadline unchanged. -/
theorem cam_ctl_cb_learning (now : ℕ) (k : Kinematics) (s : ZoomState)
    (pos : CameraPos)
    (hperm : s.allow_zoom = true ∨ (s.allow_zoom_t ≠ 0 ∧ now < s.allow_zoom_t)) :
    ((cam_ctl_cb now s pos false).state.zoom_tgt = pos.zoom ∧
     (cam_ctl_cb now s pos false).pos = pos ∧
     (cam_ctl_cb now s pos false).state.allow_zoom = s.allow_zoom ∧
     (cam_ctl_cb now s pos false).state.allow_zoom_t = s.allow_zoom_t) ∧
    ((cam_ctl_cb_ext now k s pos false).state.zoom_tgt = pos.zoom ∧
     (cam_ctl_cb_ext now k s pos false).pos = pos ∧
     (cam_ctl_cb_ext now k s pos false).state.allow_zoom = s.allow_zoom ∧
     (cam_ctl_cb_ext now k s pos false).state.allow_zoom_t = s.allow_zoom_t) := by
  have hp : permission_granted now s = true := (permission_granted_iff now s).2 hperm
  simp [cam_ctl_cb, cam_ctl_cb_ext, hp]

/-- C2 witness at a concrete input (deadline nonzero, time within it). -/
theorem cam_ctl_cb_learning_witness :
    ((cam_ctl_cb 7 ⟨false, 9, true, 1⟩ ⟨0, 0, 0, 0, 0, 0, 2⟩ false).state.zoom_tgt
        = (2 : ℚ) ∧
     (cam_ctl_cb 7 ⟨false, 9, true, 1⟩ ⟨0, 0, 0, 0, 0, 0, 2⟩ false).pos
        = ⟨0, 0, 0, 0, 0, 0, 2⟩ ∧
     (cam_ctl_cb 7 ⟨false, 9, true, 1⟩ ⟨0, 0, 0, 0, 0, 0, 2⟩ false).state.allow_zoom
        = false ∧
     (cam_ctl_cb 7 ⟨false, 9, true, 1⟩ ⟨0, 0, 0, 0, 0, 0, 2⟩ false).state.allow_zoom_t
        = 9) ∧
    ((cam_ctl_cb_ext 7 ⟨1, 1, 1, 1, 1, 1, 1, 1, 1, 1⟩ ⟨false, 9, true, 1⟩
        ⟨0, 0, 0, 0, 0, 0, 2⟩ false).state.zoom_tgt = (2 : ℚ) ∧
     (cam_ctl_cb_ext 7 ⟨1, 1, 1, 1, 1, 1, 1, 1, 1, 1⟩ ⟨false, 9, true, 1⟩
        ⟨0, 0, 0, 0, 0, 0, 2⟩ false).pos = ⟨0, 0, 0, 0, 0, 0, 2⟩ ∧
     (cam_ctl_cb_ext 7 ⟨1, 1, 1, 1, 1, 1, 1, 1, 1, 1⟩ ⟨false, 9, true, 1⟩
        ⟨0, 0, 0, 0, 0, 0, 2⟩ false).state.allow_zoom = false ∧
     (cam_ctl_cb_ext 7 ⟨1, 1, 1, 1, 1, 1, 1, 1, 1, 1⟩ ⟨false, 9, true, 1⟩
        ⟨0, 0, 0, 0, 0, 0, 2⟩ false).state.allow_zoom_t = 9) :=
  cam_ctl_cb_learning 7 ⟨1, 1, 1, 1, 1, 1, 1, 1, 1, 1⟩ ⟨false, 9, true, 1⟩
    ⟨0, 0, 0, 0, 0, 0, 2⟩ (Or.inr (by decide))

/-- C4: with permission not granted and a proposed zoom equal to
`zoom_tgt`, one invocation of the camera callback (base or extended
variant) with `losing_ctl` false clears `cam_ctl`, returns release, and
leaves `zoom_tgt`, the pose, `allow_zoom` and the deadline unchanged. -/
theorem cam_ctl_cb_release (now : ℕ) (k : Kinematics) (s : ZoomState)
    (pos : CameraPos)
    (hhold : s.allow_zoom = false)
    (hdl : s.allow_zoom_t = 0 ∨ ¬ now < s.allow_zoom_t)
    (hz : pos.zoom = s.zoom_tgt) :
    ((cam_ctl_cb now s pos false).state.cam_ctl = false ∧
     (cam_ctl_cb now s pos false).retain = false ∧
     (cam_ctl_cb now s pos false).state.zoom_tgt = s.zoom_tgt ∧
     (cam_ctl_cb now s pos false).pos = pos ∧
     (cam_ctl_cb now s pos false).state.allow_zoom = s.allow_zoom ∧
     (cam_ctl_cb now s pos false).state.allow_zoom_t = s.allow_zoom_t) ∧
    ((cam_ctl_cb_ext now k s pos false).state.cam_ctl = false ∧
     (cam_ctl_cb_ext now k s pos false).retain = false ∧
     (cam_ctl_cb_ext now k s pos false).state.zoom_tgt = s.zoom_tgt ∧
     (cam_ctl_cb_ext now k s pos false).pos = pos ∧
     (cam_ctl_cb_ext now k s pos false).state.allow_zoom = s.allow_zoom ∧
     (cam_ctl_cb_ext now k s pos false).state.allow_zoom_t = s.allow_zoom_t) := by
  have hp := permission_granted_false now s hhold hdl
  simp [cam_ctl_cb, cam_ctl_cb_ext, hp, hz]

/-- C4 witness at a concrete input (deadline expired, zoom on target). -/
theorem cam_ctl_cb_release_witness :
    ((cam_ctl_cb 9 ⟨false, 9, true, 1⟩ ⟨0, 0, 0, 0, 0, 0, 1⟩ false).state.cam_ctl
        = false ∧
     (cam_ctl_cb 9 ⟨false, 9, true, 1⟩ ⟨0, 0, 0, 0, 0, 0, 1⟩ false).retain
        = false ∧
     (cam_ctl_cb 9 ⟨false, 9, true, 1⟩ ⟨0, 0, 0, 0, 0, 0, 1⟩ false).state.zoom_tgt
        = (1 : ℚ) ∧
     (cam_ctl_cb 9 ⟨false, 9, true, 1⟩ ⟨0, 0, 0, 0, 0, 0, 1⟩ false).pos
        = ⟨0, 0, 0, 0, 0, 0, 1⟩ ∧
     (cam_ctl_cb 9 ⟨false, 9, true, 1⟩ ⟨0, 0, 0, 0, 0, 0, 1⟩ false).state.allow_zoom
        = false ∧
     (cam_ctl_cb 9 ⟨false, 9, true, 1⟩ ⟨0, 0, 0, 0, 0, 0, 1⟩ false).state.allow_zoom_t
        = 9) ∧
    ((cam_ctl_cb_ext 9 ⟨1, 1, 1, 1, 1, 1, 1, 1, 1, 1⟩ ⟨false, 9, true, 1⟩
        ⟨0, 0, 0, 0, 0, 0, 1⟩ false).state.cam_ctl = false ∧
     (cam_ctl_cb_ext 9 ⟨1, 1, 1, 1, 1, 1, 1, 1, 1, 1⟩ ⟨false, 9, true, 1⟩
        ⟨0, 0, 0, 0, 0, 0, 1⟩ false).retain = false ∧
     (cam_ctl_cb_ext 9 ⟨1, 1, 1, 1, 1, 1, 1, 1, 1, 1⟩ ⟨false, 9, true, 1⟩
        ⟨0, 0, 0, 0, 0, 0, 1⟩ false).state.zoom_tgt = (1 : ℚ) ∧
     (cam_ctl_cb_ext 9 ⟨1, 1, 1, 1, 1, 1, 1, 1, 1, 1⟩ ⟨false, 9, true, 1⟩
        ⟨0, 0, 0, 0, 0, 0, 1⟩ false).pos = ⟨0, 0, 0, 0, 0, 0, 1⟩ ∧
     (cam_ctl_cb_ext 9 ⟨1, 1, 1, 1, 1, 1, 1, 1, 1, 1⟩ ⟨false, 9, true, 1⟩
        ⟨0, 0, 0, 0, 0, 0, 1⟩ false).state.allow_zoom = false ∧
     (cam_ctl_cb_ext 9 ⟨1, 1, 1, 1, 1, 1, 1, 1, 1, 1⟩ ⟨false, 9, true, 1⟩
        ⟨0, 0, 0, 0, 0, 0, 1⟩ false).state.allow_zoom_t = 9) :=
  cam_ctl_cb_release 9 ⟨1, 1, 1, 1, 1, 1, 1, 1, 1, 1⟩ ⟨false, 9, true, 1⟩
    ⟨0, 0, 0, 0, 0, 0, 1⟩ rfl (Or.inr (by decide)) rfl

/-- C10: in learning mode (permission granted, `losing_ctl` false) the
camera callback clears `cam_ctl` and returns release in that same
invocation, whatever the proposed zoom; and in both variants the retain
outcome occurs exactly in the suppression branch (`losing_ctl` false,
permission denied, proposed zoom differing from `zoom_tgt`). -/
theorem cam_ctl_cb_learning_releases (now : ℕ) (k : Kinematics)
    (s : ZoomState) (pos : CameraPos) (losing : Bool) :
    (permission_granted now s = true →
       (cam_ctl_cb now s pos false).state.cam_ctl = false ∧
       (cam_ctl_cb now s pos false).retain = false ∧
       (cam_ctl_cb_ext now k s pos false).state.cam_ctl = false ∧
       (cam_ctl_cb_ext now k s pos false).retain = false) ∧
    ((cam_ctl_cb now s pos losing).retain = true ↔
       (losing = false ∧ permission_granted now s = false ∧
        pos.zoom ≠ s.zoom_tgt)) ∧
    ((cam_ctl_cb_ext now k s pos losing).retain = true ↔
       (losing = false ∧ permission_granted now s = false ∧
        pos.zoom ≠ s.zoom_tgt)) := by
  refine ⟨fun hp => by simp [cam_ctl_cb, cam_ctl_cb_ext, hp], ?_, ?_⟩ <;>
    · simp only [cam_ctl_cb, cam_ctl_cb_ext]
      cases losing <;> cases hp : permission_granted now s <;>
        by_cases hz : pos.zoom = s.zoom_tgt <;> simp_all

/-- C10 witness: permission granted with zoom differing from target still
releases; a concrete retain case agrees with the iff characterization. -/
theorem cam_ctl_cb_learning_releases_witness :
    ((cam_ctl_cb 7 ⟨true, 0, true, 1⟩ ⟨0, 0, 0, 0, 0, 0, 2⟩ false).state.cam_ctl
        = false ∧
     (cam_ctl_cb 7 ⟨true, 0, true, 1⟩ ⟨0, 0, 0, 0, 0, 0, 2⟩ false).retain
        = false ∧
     (cam_ctl_cb_ext 7 ⟨1, 1, 1, 1, 1, 1, 1, 1, 1, 1⟩ ⟨true, 0, true, 1⟩
        ⟨0, 0, 0, 0, 0, 0, 2⟩ false).state.cam_ctl = false ∧
     (cam_ctl_cb_ext 7 ⟨1, 1, 1, 1, 1, 1, 1, 1, 1, 1⟩ ⟨true, 0, true, 1⟩
        ⟨0, 0, 0, 0, 0, 0, 2⟩ false).retain = false) :=
  (cam_ctl_cb_learning_releases 7 ⟨1, 1, 1, 1, 1, 1, 1, 1, 1, 1⟩
    ⟨true, 0, true, 1⟩ ⟨0, 0, 0, 0, 0, 0, 2⟩ false).1 (by decide)

/-- C5: firing a passive zoom command at `t1` and again at `t2 > t1`
before the first deadline expires leaves the deadline at
`t2 + ZOOM_REL_CMD_T`, not `t1 + 2 * ZOOM_REL_CMD_T`: the handler
overwrites the single stored deadline, so the composite equals a single
invocation at the later time on the original state. -/
theorem zoom_cmd_cb_overwrites (t1 t2 : ℕ) (r1 r2 : ZoomCmd)
    (p1 p2 : CommandPhase) (s : ZoomState)
    (h1 : t1 < t2) (h2 : t2 < t1 + ZOOM_REL_CMD_T) :
    (zoom_cmd_cb t2 r2 p2 (zoom_cmd_cb t1 r1 p1 s)).allow_zoom_t
        = t2 + ZOOM_REL_CMD_T ∧
    (zoom_cmd_cb t2 r2 p2 (zoom_cmd_cb t1 r1 p1 s)).allow_zoom_t
        ≠ t1 + 2 * ZOOM_REL_CMD_T ∧
    zoom_cmd_cb t2 r2 p2 (zoom_cmd_cb t1 r1 p1 s) = zoom_cmd_cb t2 r2 p2 s := by
  refine ⟨rfl, ?_, rfl⟩
  simp only [zoom_cmd_cb, ZOOM_REL_CMD_T] at h2 ⊢
  omega

/-- C5 witness at concrete times 1000 and 2000. -/
theorem zoom_cmd_cb_overwrites_witness :
    (zoom_cmd_cb 2000 .zoom_out .end_
        (zoom_cmd_cb 1000 .zoom_in .begin_ ⟨false, 0, false, 1⟩)).allow_zoom_t
      = 2000 + ZOOM_REL_CMD_T ∧
    (zoom_cmd_cb 2000 .zoom_out .end_
        (zoom_cmd_cb 1000 .zoom_in .begin_ ⟨false, 0, false, 1⟩)).allow_zoom_t
      ≠ 1000 + 2 * ZOOM_REL_CMD_T ∧
    zoom_cmd_cb 2000 .zoom_out .end_
        (zoom_cmd_cb 1000 .zoom_in .begin_ ⟨false, 0, false, 1⟩)
      = zoom_cmd_cb 2000 .zoom_out .end_ ⟨false, 0, false, 1⟩ :=
  zoom_cmd_cb_overwrites 1000 2000 .zoom_in .zoom_out .begin_ .end_
    ⟨false, 0, false, 1⟩ (by decide) (by decide)

/-- C6: the toggle handler on a begin-phase event flips `allow_zoom`;
when the flip lands on false it sets the deadline to
`now + ZOOM_REL_INH_KEY_T` and when it lands on true it leaves the
deadline untouched (`cam_ctl` and `zoom_tgt` are never touched); on
continue and end phases it changes nothing. -/
theorem allow_zoom_tog_characterization (now : ℕ) (s : ZoomState) :
    ((allow_zoom_cb now .allow_zoom_tog .begin_ s).allow_zoom
        = !s.allow_zoom ∧
     (allow_zoom_cb now .allow_zoom_tog .begin_ s).allow_zoom_t
        = (if (allow_zoom_cb now .allow_zoom_tog .begin_ s).allow_zoom
           then s.allow_zoom_t else now + ZOOM_REL_INH_KEY_T) ∧
     (allow_zoom_cb now .allow_zoom_tog .begin_ s).cam_ctl = s.cam_ctl ∧
     (allow_zoom_cb now .allow_zoom_tog .begin_ s).zoom_tgt = s.zoom_tgt) ∧
    allow_zoom_cb now .allow_zoom_tog .continue_ s = s ∧
    allow_zoom_cb now .allow_zoom_tog .end_ s = s := by
  cases h : s.allow_zoom <;> simp [allow_zoom_cb, h]

/-- C7: every invocation of the handler bound to the six passive
`sim/general/zoom_*` commands, for any command and phase, sets the
deadline to `now + 550000` us; every invocation of the handler bound to
the twenty `sim/view/quick_look_*` commands sets it to `now + 1250000`
us; neither touches `allow_zoom`, `cam_ctl` or `zoom_tgt`. -/
theorem passive_cmd_deadlines (now : ℕ) (s : ZoomState) :
    ZOOM_REL_CMD_T = 550000 ∧
    ZOOM_REL_QUICK_LOOK_T = 1250000 ∧
    (∀ (r : ZoomCmd) (p : CommandPhase),
      zoom_cmd_cb now r p s = { s with allow_zoom_t := now + 550000 }) ∧
    (∀ (r : Fin 20) (p : CommandPhase),
      quick_look_cmd_cb now r p s
        = { s with allow_zoom_t := now + 1250000 }) := by
  exact ⟨rfl, rfl, fun r p => rfl, fun r p => rfl⟩

/-- C8: the per-frame gate installs the override callback and raises
`cam_ctl` exactly when the view is not external and `cam_ctl` is not yet
held, and otherwise changes nothing; its post `cam_ctl` is
`cam_ctl || !view_is_ext`, so it never lowers the flag; and none of the
command handlers touches `cam_ctl`, so among the embedded operations only
the camera callback ever lowers it. -/
theorem draw_cb_gate (v : Bool) (s : ZoomState) (now : ℕ) :
    (draw_cb v s = if v = false ∧ s.cam_ctl = false
       then { state := { s with cam_ctl := true }, installed := true }
       else { state := s, installed := false }) ∧
    ((draw_cb v s).installed = true ↔ (v = false ∧ s.cam_ctl = false)) ∧
    (draw_cb v s).state.cam_ctl = (s.cam_ctl || !v) ∧
    (∀ (r : ZoomCmd) (p : CommandPhase),
      (zoom_cmd_cb now r p s).cam_ctl = s.cam_ctl) ∧
    (∀ (r : Fin 20) (p : CommandPhase),
      (quick_look_cmd_cb now r p s).cam_ctl = s.cam_ctl) ∧
    (∀ (r : AllowZoomRef) (p : CommandPhase),
      (allow_zoom_cb now r p s).cam_ctl = s.cam_ctl) := by
  refine ⟨?_, ?_, ?_, fun r p => rfl, fun r p => rfl, fun r p => ?_⟩
  · cases v <;> cases h : s.cam_ctl <;> simp [draw_cb, h]
  · cases v <;> cases h : s.cam_ctl <;> simp [draw_cb, h]
  · cases v <;> cases h : s.cam_ctl <;> simp [draw_cb, h]
  · cases r <;> cases p <;> cases h : s.allow_zoom <;> simp [allow_zoom_cb, h]

/-- C9: for every input the extended-variant callback and the base
variant agree on the return value, the whole post-state (`cam_ctl`,
`zoom_tgt`, deadline, `allow_zoom`) and the pose's zoom; and the
extended variant's pose differs from the base variant's exactly by the
kinematic extrapolation (`v*dt + a*dt^2/2` on x, y, z and angular rate
times `dt` on roll, pitch, heading), applied only in the branch where
the zoom is overridden. -/
theorem cam_ctl_cb_ext_refines (now : ℕ) (k : Kinematics) (s : ZoomState)
    (pos : CameraPos) (losing : Bool) :
    (cam_ctl_cb_ext now k s pos losing).state
        = (cam_ctl_cb now s pos losing).state ∧
    (cam_ctl_cb_ext now k s pos losing).retain
        = (cam_ctl_cb now s pos losing).retain ∧
    (cam_ctl_cb_ext now k s pos losing).pos.zoom
        = (cam_ctl_cb now s pos losing).pos.zoom ∧
    (cam_ctl_cb_ext now k s pos losing).pos =
      (if losing = false ∧ permission_granted now s = false ∧
          pos.zoom ≠ s.zoom_tgt then
        { (cam_ctl_cb now s pos losing).pos with
            x := (cam_ctl_cb now s pos losing).pos.x
              + k.local_vx * k.frame_intval
              + 1/2 * k.local_ax * (k.frame_intval * k.frame_intval),
            y := (cam_ctl_cb now s pos losing).pos.y
              + k.local_vy * k.frame_intval
              + 1/2 * k.local_ay * (k.frame_intval * k.frame_intval),
            z := (cam_ctl_cb now s pos losing).pos.z
              + k.local_vz * k.frame_intval
              + 1/2 * k.local_az * (k.frame_intval * k.frame_intval),
            roll := (cam_ctl_cb now s pos losing).pos.roll
              + k.P * k.frame_intval,
            pitch := (cam_ctl_cb now s pos losing).pos.pitch
              + k.Q * k.frame_intval,
            heading := (cam_ctl_cb now s pos losing).pos.heading
              + k.R * k.frame_intval }
       else (cam_ctl_cb now s pos losing).pos) := by
  simp only [cam_ctl_cb, cam_ctl_cb_ext]
  cases losing <;> cases hp : permission_granted now s <;>
    by_cases hz : pos.zoom = s.zoom_tgt <;> simp_all

end StopZooming
